import Mathlib

/-!
Verification development for the Kitchen Queue Management repository.

The definitions below are a shallow embedding of the order-lifecycle core:

* `app/models/order.py` — the `OrderStatus` enum and the `Order`,
  `OrderItem`, `OrderStatusHistory` records (modelled as Lean structures;
  SQLAlchemy columns become plain fields, `Numeric(10, 2)` money becomes
  an `Int` count of hundredths — exact for every decimal the column can
  hold — `DateTime` becomes an abstract `Nat` tick, nullable columns
  become `Option`).
* `app/services/order_service.py` — `ALLOWED_TRANSITIONS`,
  `can_transition`, `change_status` and the order-construction part of
  `create_customer_order`.
* `app/services/chef_order_services.py` — the chef-side helpers and the
  accept / start-cooking / mark-ready / complete / cancel / reject /
  assign / unassign operations.  Every one of these entry points binds
  `order` to the value of `get_order_items_with_name` — which returns
  `result.mappings().all()`, a list of item-row mappings, not the
  `Order` row — and then reads an order attribute on that list, so each
  raises `AttributeError` before any check or mutation; the embedding
  reflects this, and the type-correct helpers they would have called
  are embedded separately.
* `app/services/menu_service.py` — the price-updating part of
  `update_item`.
* `app/websocket/events.py` and `app/websocket/manager.py` — the event
  payload builders and the fan-out manager.

The database session is modelled as an explicit `DB` value holding the
relevant tables; `db.commit()` of in-place ORM mutations becomes the
construction of an updated `DB`.  An HTTP exception raised by a service
becomes an `Except.error` carrying an `ApiError`; every raising path
returns the incoming `DB` unchanged, mirroring that the source raises
before flushing any mutation.
-/

namespace KitchenQueue

/-- Embeds the `OrderStatus` enum of `app/models/order.py`. -/
inductive OrderStatus
  | pending
  | accepted
  | cooking
  | ready
  | completed
  | canceled
  | rejected
deriving DecidableEq, Repr

/-- Embeds the `.value` string of each `OrderStatus` member
(`app/models/order.py` assigns each member its lowercase name). -/
def OrderStatus.value : OrderStatus → String
  | .pending => "pending"
  | .accepted => "accepted"
  | .cooking => "cooking"
  | .ready => "ready"
  | .completed => "completed"
  | .canceled => "canceled"
  | .rejected => "rejected"

/-- Embeds the `ALLOWED_TRANSITIONS` dict of
`app/services/order_service.py` (lines 283-291). -/
def ALLOWED_TRANSITIONS : OrderStatus → List OrderStatus
  | .pending => [.accepted, .canceled, .rejected]
  | .accepted => [.cooking, .canceled]
  | .cooking => [.ready, .canceled]
  | .ready => [.completed]
  | .completed => []
  | .canceled => []
  | .rejected => []

/-- Embeds `can_transition` of `app/services/order_service.py`
(line 293): membership of the target in the allowed list.  The Python
`dict.get(old, [])` default is unreachable because the dict covers all
seven members, so the total function above is an exact model. -/
def can_transition (old_status new_status : OrderStatus) : Bool :=
  decide (new_status ∈ ALLOWED_TRANSITIONS old_status)

/-- Embeds the `MenuItem` row fields used by the order core
(`app/models/menu.py`): id, current price, and the food-type tag. -/
structure MenuItem where
  id : Nat
  price : Int
  food_type : Option String
deriving DecidableEq, Repr

/-- Embeds the `Order` row of `app/models/order.py`, restricted to the
columns the lifecycle core reads or writes. -/
structure Order where
  id : Nat
  restaurant_id : Nat
  customer_name : Option String
  status : OrderStatus
  total_amount : Int
  created_at : Nat
  updated_at : Nat
  accepted_at : Option Nat
  cooking_at : Option Nat
  ready_at : Option Nat
  completed_at : Option Nat
  assigned_chef_id : Option Nat
  delay_reason : Option String
deriving DecidableEq, Repr

/-- Embeds the `OrderItem` row of `app/models/order.py`: the per-line
snapshot of quantity, unit price, line total and food type. -/
structure OrderItem where
  order_id : Nat
  menu_item_id : Nat
  quantity : Nat
  unit_price : Int
  total_price : Int
  food_type : Option String
deriving DecidableEq, Repr

/-- Embeds the `OrderStatusHistory` row of `app/models/order.py`. -/
structure OrderStatusHistory where
  order_id : Nat
  previous_status : Option OrderStatus
  new_status : OrderStatus
  timestamp : Nat
  changed_by_chef_id : Option Nat
deriving DecidableEq, Repr

/-- Embeds the `ChefActivityLog` row of `app/models/chef_activity.py`:
kitchen, acting chef, order, action name, optional detail. -/
structure ChefActivityLog where
  restaurant_id : Nat
  chef_id : Nat
  order_id : Nat
  action : String
  details : Option String
deriving DecidableEq, Repr

/-- Embeds the `Chef` row fields used by the order core
(`app/models/chef.py`): identity and kitchen affiliation. -/
structure Chef where
  id : Nat
  restaurant_id : Nat
deriving DecidableEq, Repr

/-- The transactional store: the tables touched by the lifecycle core.
An `AsyncSession` plus its committed rows is modelled as this value. -/
structure DB where
  menu : List MenuItem
  orders : List Order
  order_items : List OrderItem
  status_history : List OrderStatusHistory
  activity_log : List ChefActivityLog
deriving DecidableEq, Repr

/-- Errors escaping a service call: the first three record an
`HTTPException` by status family and `detail` string; `attributeError`
records an unhandled Python `AttributeError` (a server error to the
client) naming the missing attribute. -/
inductive ApiError
  | notFound (detail : String)
  | forbidden (detail : String)
  | badRequest (detail : String)
  | attributeError (attr : String)
deriving DecidableEq, Repr

deriving instance DecidableEq for Except

/-- Returns true exactly on `Except.ok`; used to state that a service
call succeeded (did not raise). -/
def except_ok : Except ε α → Bool
  | Except.ok _ => true
  | Except.error _ => false

/-- A websocket message payload as built in `app/websocket/events.py`.
Each Python dict is modelled with one field per possible key; `none`
in an `Option`-of-presence field means the key is absent from the dict.
`reason` is `Option (Option String)`: the outer layer is key presence,
the inner layer is the nullable `delay_reason` column value. -/
structure EventMsg where
  event : String
  order_id : Nat
  restaurant_id : Option Nat
  status : Option String
  reason : Option (Option String)
deriving DecidableEq, Repr

/-- A fan-out destination key: the order-scoped or the kitchen-scoped
registry of `app/websocket/manager.py`. -/
inductive Scope
  | orderScope (order_id : Nat)
  | restaurantScope (restaurant_id : Nat)
deriving DecidableEq, Repr

/-- Embeds `push_new_order` of `app/websocket/events.py`: one message to
the kitchen-scoped registry only. -/
def push_new_order (o : Order) : List (Scope × EventMsg) :=
  let msg : EventMsg :=
    { event := "new_order", order_id := o.id, restaurant_id := some o.restaurant_id,
      status := some o.status.value, reason := none }
  [(Scope.restaurantScope o.restaurant_id, msg)]

/-- Embeds `push_status_update` of `app/websocket/events.py`: one message
delivered to both the order-scoped and the kitchen-scoped registries. -/
def push_status_update (o : Order) : List (Scope × EventMsg) :=
  let msg : EventMsg :=
    { event := "order_status_update", order_id := o.id, restaurant_id := none,
      status := some o.status.value, reason := none }
  [(Scope.orderScope o.id, msg), (Scope.restaurantScope o.restaurant_id, msg)]

/-- Embeds `push_order_canceled` of `app/websocket/events.py`: the dict
built there has exactly the keys `event` and `order_id`. -/
def push_order_canceled (o : Order) : List (Scope × EventMsg) :=
  let msg : EventMsg :=
    { event := "order_canceled", order_id := o.id, restaurant_id := none,
      status := none, reason := none }
  [(Scope.orderScope o.id, msg), (Scope.restaurantScope o.restaurant_id, msg)]

/-- Embeds `push_order_delayed` of `app/websocket/events.py`: the only
payload carrying a `reason` key. -/
def push_order_delayed (o : Order) : List (Scope × EventMsg) :=
  let msg : EventMsg :=
    { event := "order_delayed", order_id := o.id, restaurant_id := none,
      status := none, reason := some o.delay_reason }
  [(Scope.orderScope o.id, msg), (Scope.restaurantScope o.restaurant_id, msg)]

/-- Embeds the `timestamp_map` block of `change_status`
(`app/services/order_service.py` lines 327-335): the stage timestamp of
the target status is overwritten with the current time. -/
def apply_timestamp_map (o : Order) (new_status : OrderStatus) (now : Nat) : Order :=
  match new_status with
  | .accepted => { o with accepted_at := some now }
  | .cooking => { o with cooking_at := some now }
  | .ready => { o with ready_at := some now }
  | .completed => { o with completed_at := some now }
  | _ => o

/-- The order row as `change_status` commits it
(`app/services/order_service.py` lines 334-339): stage timestamp
overwritten, status set, ownership taken by the acting chef, update
time refreshed. -/
def transitioned_order (order : Order) (new_status : OrderStatus)
    (chef : Chef) (now : Nat) : Order :=
  { apply_timestamp_map order new_status now with
    status := new_status, assigned_chef_id := some chef.id, updated_at := now }

/-- The `OrderStatusHistory` row `change_status` appends
(`app/services/order_service.py` lines 341-349). -/
def transition_entry (order : Order) (new_status : OrderStatus)
    (chef : Chef) (now : Nat) : OrderStatusHistory :=
  { order_id := order.id, previous_status := some order.status,
    new_status := new_status, timestamp := now,
    changed_by_chef_id := some chef.id }

/-- Embeds `change_status` of `app/services/order_service.py`
(lines 301-359).  Returns the resulting store together with either the
raised error or the refreshed order plus the scoped websocket messages
that `push_order_canceled` / `push_status_update` hand to the manager
after commit.  Every raising path returns the incoming store unchanged,
as the source raises before mutating. -/
def change_status (db : DB) (order_id : Nat) (new_status : OrderStatus)
    (chef : Chef) (now : Nat) :
    DB × Except ApiError (Order × List (Scope × EventMsg)) :=
  match db.orders.find? (fun o => o.id == order_id) with
  | none => (db, Except.error (ApiError.notFound "Order not found"))
  | some order =>
    if order.restaurant_id ≠ chef.restaurant_id then
      (db, Except.error (ApiError.forbidden "Not allowed: order belongs to another restaurant"))
    else
      let old_status := order.status
      if can_transition old_status new_status then
        let order2 := transitioned_order order new_status chef now
        let entry := transition_entry order new_status chef now
        let db2 : DB :=
          { db with
            orders := db.orders.map (fun o => if o.id == order_id then order2 else o),
            status_history := db.status_history ++ [entry] }
        let events :=
          if new_status = OrderStatus.canceled then push_order_canceled order2
          else push_status_update order2
        (db2, Except.ok (order2, events))
      else
        (db, Except.error (ApiError.badRequest
          ("Cannot change status from " ++ old_status.value ++ " to " ++ new_status.value)))

/-- One resolved line of an order payload
(`app/schemas/order.py` item after the id/name resolution of
`create_customer_order` stages 2-3 has filled `item_id`). -/
structure PayloadItem where
  item_id : Nat
  quantity : Nat
deriving DecidableEq, Repr

/-- Embeds the menu-item fetch by id used in `create_customer_order`
(`app/services/order_service.py` lines 90-92 build the id-keyed dict). -/
def lookup_menu_item (menu : List MenuItem) (item_id : Nat) : Option MenuItem :=
  menu.find? (fun m => m.id == item_id)

/-- Embeds one iteration of the order-construction loop of
`create_customer_order` (lines 133-147): the current menu price is
frozen into the line as `unit_price`, the line total is price times
quantity, and the food type is snapshotted. -/
def build_order_item (oid : Nat) (m : MenuItem) (quantity : Nat) : OrderItem :=
  let price := m.price
  let line_total := price * (quantity : Int)
  { order_id := oid, menu_item_id := m.id, quantity := quantity,
    unit_price := price, total_price := line_total, food_type := m.food_type }

/-- Embeds the order-construction loop of `create_customer_order` over
the whole payload: each line must resolve against the menu. -/
def build_order_items (menu : List MenuItem) (oid : Nat) :
    List PayloadItem → Option (List OrderItem)
  | [] => some []
  | it :: rest =>
    match lookup_menu_item menu it.item_id with
    | none => none
    | some m =>
      (build_order_items menu oid rest).map
        (fun ls => build_order_item oid m it.quantity :: ls)

/-- Embeds the order-creation part of `create_customer_order`
(`app/services/order_service.py` lines 83-84 and 126-179): rejects an
empty item list, freezes each line, sums the line totals into
`total_amount`, creates the order in `pending` with both timestamps set
to now, and appends the single initial history entry
(previous none, new pending, no acting chef).  Restaurant resolution,
name-based item resolution and the post-commit email side effects do
not bear on the claims and are outside this function; `oid` stands for
the id the store generates at flush. -/
def create_customer_order (db : DB) (restaurant_id : Nat)
    (customer_name : Option String) (items : List PayloadItem)
    (oid now : Nat) : Option (DB × Order) :=
  if items.isEmpty then none
  else
    match build_order_items db.menu oid items with
    | none => none
    | some order_items =>
      let total_amount := order_items.foldl (fun acc l => acc + l.total_price) (0 : Int)
      let order : Order :=
        { id := oid, restaurant_id := restaurant_id, customer_name := customer_name,
          status := OrderStatus.pending, total_amount := total_amount,
          created_at := now, updated_at := now,
          accepted_at := none, cooking_at := none, ready_at := none,
          completed_at := none, assigned_chef_id := none, delay_reason := none }
      let entry : OrderStatusHistory :=
        { order_id := oid, previous_status := none,
          new_status := OrderStatus.pending, timestamp := now,
          changed_by_chef_id := none }
      some
        ({ db with
            orders := db.orders ++ [order],
            order_items := db.order_items ++ order_items,
            status_history := db.status_history ++ [entry] }, order)

/-- The line items stored for one order: the `order_items` rows whose
`order_id` foreign key points at it. -/
def items_of (db : DB) (oid : Nat) : List OrderItem :=
  db.order_items.filter (fun it => it.order_id == oid)

/-- Embeds the price-updating part of `update_item`
(`app/services/menu_service.py` lines 172-198): fetch by id, `none` when
absent, overwrite the price only when the payload carries one, commit.
The other optional payload fields (name, description, availability) do
not interact with orders and are omitted. -/
def update_item (db : DB) (item_id : Nat) (price : Option Int) :
    Option (DB × MenuItem) :=
  match db.menu.find? (fun m => m.id == item_id) with
  | none => none
  | some item =>
    let item1 := match price with
      | some p => { item with price := p }
      | none => item
    some
      ({ db with menu := db.menu.map (fun m => if m.id == item_id then item1 else m) },
        item1)

/-- Embeds the detail string built by `_ensure_status`
(`app/services/chef_order_services.py` lines 49-55).  Unreachable from
the service entry points as written, because every entry point raises
at the fetch before calling `_ensure_status`; kept as the embedding of
the helper itself. -/
def ensure_status_detail (allowed_statuses : List OrderStatus)
    (action_name : String) (cur : OrderStatus) : String :=
  "Order must be in one of [" ++
    String.intercalate ", " (allowed_statuses.map OrderStatus.value) ++
    "] to " ++ action_name ++ ". Current status: " ++ cur.value

/-- Embeds `_set_status_fields` of `app/services/chef_order_services.py`
(lines 61-78): overwrite the stage timestamp matching the target status,
then set the status.  Unreachable from the service entry points as
written (the fetch raises first); kept as the embedding of the helper
itself. -/
def set_status_fields (order : Order) (new_status : OrderStatus) (now : Nat) : Order :=
  let order1 :=
    if new_status = OrderStatus.accepted then { order with accepted_at := some now }
    else if new_status = OrderStatus.cooking then { order with cooking_at := some now }
    else if new_status = OrderStatus.ready then { order with ready_at := some now }
    else if new_status = OrderStatus.completed then { order with completed_at := some now }
    else order
  { order1 with status := new_status }

/-- Embeds `_log_action` of `app/services/chef_order_services.py`
(lines 84-106): append one `ChefActivityLog` row naming the action,
the acting chef and the order's kitchen.  The only `_log_action` call
sites are the chef lifecycle operations, all of which raise at the
fetch before reaching it. -/
def log_action (db : DB) (order : Order) (chef : Chef) (action : String)
    (details : Option String) : DB :=
  { db with
    activity_log := db.activity_log ++
      [{ restaurant_id := order.restaurant_id, chef_id := chef.id,
         order_id := order.id, action := action, details := details }] }

/-- Embeds `_change_status_and_log` of
`app/services/chef_order_services.py` (lines 112-129): set the status
fields, log the action and commit.  Note three points of the source it
reflects exactly: no `OrderStatusHistory` row is appended on this path;
the `order.chef_id = chef.id` line writes an attribute that is not a
column of the `Order` model (the table has `assigned_chef_id`), so it
persists nothing and is not modelled as a stored field; and the helper
is unreachable from the service entry points as written, because every
caller raises at the fetch before reaching it. -/
def change_status_and_log (db : DB) (order : Order) (chef : Chef)
    (new_status : OrderStatus) (action : String) (details : Option String)
    (now : Nat) : DB × Order :=
  let order1 := set_status_fields order new_status now
  let db1 := { db with orders := db.orders.map (fun o => if o.id == order.id then order1 else o) }
  let db2 := log_action db1 order1 chef action details
  (db2, order1)

/-- Embeds `get_order_items_with_name` of
`app/services/chef_order_services.py` (lines 15-31): a select over the
order's item rows (joined with the menu for a name column nothing
below observes), returning `result.mappings().all()` — a Python list
of row mappings, not the `Order` row. -/
def get_order_items_with_name (db : DB) (order_id : Nat) : List OrderItem :=
  db.order_items.filter (fun it => it.order_id == order_id)

/-- Models the Python attribute access `x.attr` performed on the list
returned by `get_order_items_with_name`: a list object has none of the
`Order` attributes, so the access raises `AttributeError` naming the
missing attribute, before anything else in the operation runs. -/
def list_attribute_error (rows : List OrderItem) (attr : String) : ApiError :=
  ApiError.attributeError attr

/-- Embeds `accept_order` of `app/services/chef_order_services.py`
(lines 167-177).  The function binds `order` to the item-row list from
`get_order_items_with_name` and immediately evaluates `order.status`
inside `_ensure_status`; a Python list has no `status` attribute, so
every call raises `AttributeError` before any status check or
mutation, leaving the session unchanged.  The written continuation
(`_ensure_status [pending]`, then `_change_status_and_log` with action
name "accept") is unreachable. -/
def accept_order (db : DB) (order_id : Nat) (chef : Chef) :
    DB × Except ApiError Order :=
  let order := get_order_items_with_name db order_id
  (db, Except.error (list_attribute_error order "status"))

/-- Embeds `start_cooking` of `app/services/chef_order_services.py`
(lines 183-192): raises `AttributeError` at `order.status` on the
item-row list, exactly as `accept_order` does; the written
accepted-to-cooking continuation is unreachable. -/
def start_cooking (db : DB) (order_id : Nat) (chef : Chef) :
    DB × Except ApiError Order :=
  let order := get_order_items_with_name db order_id
  (db, Except.error (list_attribute_error order "status"))

/-- Embeds `mark_ready` of `app/services/chef_order_services.py`
(lines 198-207): raises `AttributeError` at `order.status` on the
item-row list; the written cooking-to-ready continuation is
unreachable. -/
def mark_ready (db : DB) (order_id : Nat) (chef : Chef) :
    DB × Except ApiError Order :=
  let order := get_order_items_with_name db order_id
  (db, Except.error (list_attribute_error order "status"))

/-- Embeds `complete_order` of `app/services/chef_order_services.py`
(lines 213-222): raises `AttributeError` at `order.status` on the
item-row list; the written ready-to-completed continuation is
unreachable. -/
def complete_order (db : DB) (order_id : Nat) (chef : Chef) :
    DB × Except ApiError Order :=
  let order := get_order_items_with_name db order_id
  (db, Except.error (list_attribute_error order "status"))

/-- Embeds `cancel_order` of `app/services/chef_order_services.py`
(lines 228-248).  The body's first use of the fetched value is
`order.status in [completed, canceled, rejected]` — an attribute read
on the item-row list — so every call raises `AttributeError` before
the guard, for every order and every status, and no chef cancel ever
succeeds or mutates the store.  The written guard (which would block
only the three terminal states, making `ready` cancelable) is
unreachable. -/
def cancel_order (db : DB) (order_id : Nat) (chef : Chef) :
    DB × Except ApiError Order :=
  let order := get_order_items_with_name db order_id
  (db, Except.error (list_attribute_error order "status"))

/-- Embeds `reject_order` of `app/services/chef_order_services.py`
(lines 254-266): raises `AttributeError` at `order.status` on the
item-row list; the written pending-only rejection is unreachable. -/
def reject_order (db : DB) (order_id : Nat) (chef : Chef) :
    DB × Except ApiError Order :=
  let order := get_order_items_with_name db order_id
  (db, Except.error (list_attribute_error order "status"))

/-- Embeds `assign_order` of `app/services/chef_order_services.py`
(lines 270-282).  The body's first use of the fetched value is the
guard `if order.assigned_chef_id and ...` — an attribute read on the
item-row list — so every call raises `AttributeError` before any
ownership check or mutation; the operation never succeeds and never
raises the already-assigned 400. -/
def assign_order (db : DB) (order_id : Nat) (chef : Chef) :
    DB × Except ApiError Order :=
  let order := get_order_items_with_name db order_id
  (db, Except.error (list_attribute_error order "assigned_chef_id"))

/-- Embeds `unassign_order` of `app/services/chef_order_services.py`
(lines 285-297): raises `AttributeError` at `order.assigned_chef_id`
on the item-row list; the operation never succeeds and never raises
the not-owner 403. -/
def unassign_order (db : DB) (order_id : Nat) (chef : Chef) :
    DB × Except ApiError Order :=
  let order := get_order_items_with_name db order_id
  (db, Except.error (list_attribute_error order "assigned_chef_id"))

/-- A live websocket connection of the manager: an identity plus
whether a send on it raises.  The `broken` flag models the environment
behavior of `await ws.send_json(...)` failing on a dead connection. -/
structure WSConn where
  id : Nat
  broken : Bool
deriving DecidableEq, Repr

/-- Embeds the `OrderWSManager` registries of
`app/websocket/manager.py`: each Python dict is modelled as its lookup
function, with an absent key indistinguishable from an empty list
exactly as `dict.get(key, [])` makes it. -/
structure OrderWSManager where
  order_clients : Nat → List WSConn
  chef_clients : Nat → List WSConn

/-- Exceptions of the websocket layer: `valueError` is the Python
`list.remove` miss, `sendFailed` a failed `send_json`. -/
inductive WSError
  | valueError
  | sendFailed
deriving DecidableEq, Repr

/-- Models `await ws.send_json(message)`: delivers to a live connection,
raises on a broken one. -/
def ws_send_json (ws : WSConn) (msg : EventMsg) : Except WSError (Nat × EventMsg) :=
  if ws.broken then Except.error WSError.sendFailed else Except.ok (ws.id, msg)

/-- Embeds the body of `broadcast_order` / `broadcast_to_restaurant`
(`app/websocket/manager.py` lines 17-19 and 28-30): a sequential `for`
loop of awaited sends with no exception handler.  Returns the deliveries
made, and whether an exception escaped the loop (aborting it). -/
def ws_send_all (msg : EventMsg) : List WSConn → List (Nat × EventMsg) × Bool
  | [] => ([], false)
  | ws :: rest =>
    match ws_send_json ws msg with
    | Except.error _ => ([], true)
    | Except.ok d =>
      let r := ws_send_all msg rest
      (d :: r.1, r.2)

/-- Embeds `broadcast_order` of `app/websocket/manager.py`. -/
def broadcast_order (mgr : OrderWSManager) (order_id : Nat) (msg : EventMsg) :
    List (Nat × EventMsg) × Bool :=
  ws_send_all msg (mgr.order_clients order_id)

/-- Embeds `broadcast_to_restaurant` of `app/websocket/manager.py`. -/
def broadcast_to_restaurant (mgr : OrderWSManager) (restaurant_id : Nat) (msg : EventMsg) :
    List (Nat × EventMsg) × Bool :=
  ws_send_all msg (mgr.chef_clients restaurant_id)

/-- Embeds `connect_order` of `app/websocket/manager.py` (lines 10-12):
`setdefault(order_id, []).append(ws)`. -/
def connect_order (mgr : OrderWSManager) (order_id : Nat) (ws : WSConn) : OrderWSManager :=
  { mgr with
    order_clients := fun k =>
      if k = order_id then mgr.order_clients order_id ++ [ws] else mgr.order_clients k }

/-- Embeds `connect_chef_restaurant` of `app/websocket/manager.py`
(lines 21-23). -/
def connect_chef_restaurant (mgr : OrderWSManager) (restaurant_id : Nat) (ws : WSConn) : OrderWSManager :=
  { mgr with
    chef_clients := fun k =>
      if k = restaurant_id then mgr.chef_clients restaurant_id ++ [ws] else mgr.chef_clients k }

/-- Models Python `list.remove(x)`: removes the first occurrence, raises
`ValueError` when the element is absent. -/
def py_list_remove (ws : WSConn) : List WSConn → Except WSError (List WSConn)
  | [] => Except.error WSError.valueError
  | w :: rest =>
    if w = ws then Except.ok rest
    else
      match py_list_remove ws rest with
      | Except.error e => Except.error e
      | Except.ok l => Except.ok (w :: l)

/-- Embeds `disconnect_order` of `app/websocket/manager.py`
(lines 14-15): `self.order_clients.get(order_id, []).remove(ws)`.  When
the key is absent the `get` default is an empty fresh list, so the
`remove` raises; when present, the stored list loses the first
occurrence of `ws`, or `ValueError` is raised if it is not there. -/
def disconnect_order (mgr : OrderWSManager) (order_id : Nat) (ws : WSConn) :
    Except WSError OrderWSManager :=
  match py_list_remove ws (mgr.order_clients order_id) with
  | Except.error e => Except.error e
  | Except.ok conns =>
    Except.ok
      { mgr with
        order_clients := fun k => if k = order_id then conns else mgr.order_clients k }

/-- Embeds `disconnect_chef_restaurant` of `app/websocket/manager.py`
(lines 25-26), same shape as `disconnect_order`. -/
def disconnect_chef_restaurant (mgr : OrderWSManager) (restaurant_id : Nat) (ws : WSConn) :
    Except WSError OrderWSManager :=
  match py_list_remove ws (mgr.chef_clients restaurant_id) with
  | Except.error e => Except.error e
  | Except.ok conns =>
    Except.ok
      { mgr with
        chef_clients := fun k => if k = restaurant_id then conns else mgr.chef_clients k }

/-- Status History rows of one order: the `order_status_history` rows
whose `order_id` foreign key points at it (read in timestamp order,
which commit order realizes here as append order). -/
def history_for (db : DB) (oid : Nat) : List OrderStatusHistory :=
  db.status_history.filter (fun e => e.order_id == oid)

/-- Replaying a history chain: fold the `new_status` values over an
initial status, keeping the last one. -/
def replay (init : OrderStatus) (h : List OrderStatusHistory) : OrderStatus :=
  h.foldl (fun _ e => e.new_status) init

/-- The unbroken-chain predicate of the spec: each entry's previous
status equals the running status (`none` before the first entry,
thereafter the prior entry's new status). -/
def chain_ok : Option OrderStatus → List OrderStatusHistory → Bool
  | _, [] => true
  | prev, e :: rest => decide (e.previous_status = prev) && chain_ok (some e.new_status) rest

/-- The status the chain ends in, starting from `prev`. -/
def chain_end (prev : Option OrderStatus) (l : List OrderStatusHistory) : Option OrderStatus :=
  l.foldl (fun _ e => some e.new_status) prev

/-- The first history entry exists and is the placement entry:
previous `none`, new `pending`. -/
def first_entry_ok : List OrderStatusHistory → Bool
  | [] => false
  | e :: _ => decide (e.previous_status = none) && decide (e.new_status = OrderStatus.pending)

/-- The Status History invariant for one order id: the chain is
unbroken from `none`, starts with the placement entry, and replaying
the `new_status` values from `pending` reconstructs the current status
of every order row carrying that id. -/
def history_inv (db : DB) (oid : Nat) : Bool :=
  chain_ok none (history_for db oid) &&
  first_entry_ok (history_for db oid) &&
  db.orders.all (fun o =>
    !(o.id == oid) || decide (o.status = replay OrderStatus.pending (history_for db oid)))

/-- One worker-initiated status-changing request against an order:
either the engine call `change_status` with a target status, or one of
the chef-service endpoints. -/
inductive LifecycleReq
  | engine (new_status : OrderStatus) (chef : Chef) (now : Nat)
  | chefAccept (chef : Chef)
  | chefStartCooking (chef : Chef)
  | chefMarkReady (chef : Chef)
  | chefComplete (chef : Chef)
  | chefCancel (chef : Chef)
  | chefReject (chef : Chef)
deriving DecidableEq, Repr

/-- The store after one status-changing request (a raising request
leaves it unchanged, as every raising path returns the incoming
store). -/
def lifecycle_step (db : DB) (oid : Nat) : LifecycleReq → DB
  | LifecycleReq.engine ns chef now => (change_status db oid ns chef now).1
  | LifecycleReq.chefAccept chef => (accept_order db oid chef).1
  | LifecycleReq.chefStartCooking chef => (start_cooking db oid chef).1
  | LifecycleReq.chefMarkReady chef => (mark_ready db oid chef).1
  | LifecycleReq.chefComplete chef => (complete_order db oid chef).1
  | LifecycleReq.chefCancel chef => (cancel_order db oid chef).1
  | LifecycleReq.chefReject chef => (reject_order db oid chef).1

/-- A sequence of status-changing requests against one order id, each
step acting on the store the previous one left. -/
def apply_lifecycle (db : DB) (oid : Nat) (reqs : List LifecycleReq) : DB :=
  reqs.foldl (fun d r => lifecycle_step d oid r) db

/-- A concrete pending order used by witnesses and counterexamples. -/
def sample_order : Order :=
  { id := 1, restaurant_id := 10, customer_name := some "alice",
    status := OrderStatus.pending, total_amount := 6, created_at := 5, updated_at := 5,
    accepted_at := none, cooking_at := none, ready_at := none, completed_at := none,
    assigned_chef_id := none, delay_reason := none }

/-- A concrete chef affiliated with the sample order's kitchen. -/
def sample_chef : Chef := { id := 7, restaurant_id := 10 }

/-- A store holding exactly one order and nothing else. -/
def sample_db (o : Order) : DB :=
  { menu := [], orders := [o], order_items := [], status_history := [], activity_log := [] }

/-- A store with one menu item and no orders, for placement runs. -/
def menu_db : DB :=
  { menu := [{ id := 1, price := 3, food_type := some "veg" }],
    orders := [], order_items := [], status_history := [], activity_log := [] }

/-- The line item a placement against `menu_db` freezes. -/
def placed_item : OrderItem :=
  { order_id := 1, menu_item_id := 1, quantity := 2, unit_price := 3,
    total_price := 6, food_type := some "veg" }

/-- The placement history entry of the sample order. -/
def placement_entry : OrderStatusHistory :=
  { order_id := 1, previous_status := none, new_status := OrderStatus.pending,
    timestamp := 5, changed_by_chef_id := none }

/-- The store `create_customer_order` leaves after placing the sample
order against `menu_db`. -/
def placed_db : DB :=
  { menu := [{ id := 1, price := 3, food_type := some "veg" }],
    orders := [sample_order], order_items := [placed_item],
    status_history := [placement_entry], activity_log := [] }

/-- A concrete message payload for fan-out runs. -/
def sample_msg : EventMsg :=
  { event := "order_status_update", order_id := 1, restaurant_id := none,
    status := some "accepted", reason := none }

/-- A live connection. -/
def live_conn : WSConn := { id := 2, broken := false }

/-- A dead connection: sending on it raises. -/
def dead_conn : WSConn := { id := 1, broken := true }

/-- A manager with two live connections registered for order 1. -/
def two_live_mgr : OrderWSManager :=
  { order_clients := fun k => if k = 1 then [live_conn, { id := 3, broken := false }] else [],
    chef_clients := fun _ => [] }

/-- A manager where order 1 has a dead connection registered before a
live one. -/
def dead_first_mgr : OrderWSManager :=
  { order_clients := fun k => if k = 1 then [dead_conn, live_conn] else [],
    chef_clients := fun _ => [] }

/-- A manager with a single live connection registered for order 1. -/
def one_conn_mgr : OrderWSManager :=
  { order_clients := fun k => if k = 1 then [live_conn] else [],
    chef_clients := fun _ => [] }

/-- A manager with empty registries. -/
def empty_mgr : OrderWSManager :=
  { order_clients := fun _ => [], chef_clients := fun _ => [] }

/-- The sample order after a committed transition to accepted. -/
def c9_order2 : Order := transitioned_order sample_order OrderStatus.accepted sample_chef 6

/-- The messages that transition publishes. -/
def c9_events : List (Scope × EventMsg) := push_status_update c9_order2

theorem apply_timestamp_map_id (o : Order) (ns : OrderStatus) (now : Nat) :
    (apply_timestamp_map o ns now).id = o.id := by
  cases ns <;> rfl

theorem apply_timestamp_map_status (o : Order) (ns : OrderStatus) (now : Nat) :
    (apply_timestamp_map o ns now).status = o.status := by
  cases ns <;> rfl

theorem transitioned_order_id (o : Order) (ns : OrderStatus) (chef : Chef) (now : Nat) :
    (transitioned_order o ns chef now).id = o.id := by
  simp [transitioned_order, apply_timestamp_map_id]

theorem transitioned_order_status (o : Order) (ns : OrderStatus) (chef : Chef) (now : Nat) :
    (transitioned_order o ns chef now).status = ns := rfl

theorem change_status_eq_notFound (db : DB) (oid : Nat) (ns : OrderStatus) (chef : Chef) (now : Nat)
    (hfind : db.orders.find? (fun o => o.id == oid) = none) :
    change_status db oid ns chef now = (db, Except.error (ApiError.notFound "Order not found")) := by
  simp [change_status, hfind]

theorem change_status_eq_forbidden (db : DB) (oid : Nat) (ns : OrderStatus) (chef : Chef) (now : Nat)
    (order : Order)
    (hfind : db.orders.find? (fun o => o.id == oid) = some order)
    (hauth : order.restaurant_id ≠ chef.restaurant_id) :
    change_status db oid ns chef now =
      (db, Except.error (ApiError.forbidden "Not allowed: order belongs to another restaurant")) := by
  simp [change_status, hfind, hauth]

theorem change_status_eq_illegal (db : DB) (oid : Nat) (ns : OrderStatus) (chef : Chef) (now : Nat)
    (order : Order)
    (hfind : db.orders.find? (fun o => o.id == oid) = some order)
    (hauth : order.restaurant_id = chef.restaurant_id)
    (hct : can_transition order.status ns = false) :
    change_status db oid ns chef now =
      (db, Except.error (ApiError.badRequest
        ("Cannot change status from " ++ order.status.value ++ " to " ++ ns.value))) := by
  simp [change_status, hfind, hauth, hct]

theorem change_status_eq_ok (db : DB) (oid : Nat) (ns : OrderStatus) (chef : Chef) (now : Nat)
    (order : Order)
    (hfind : db.orders.find? (fun o => o.id == oid) = some order)
    (hauth : order.restaurant_id = chef.restaurant_id)
    (hct : can_transition order.status ns = true) :
    change_status db oid ns chef now =
      ({ db with
          orders := db.orders.map
            (fun o => if o.id == oid then transitioned_order order ns chef now else o),
          status_history := db.status_history ++ [transition_entry order ns chef now] },
        Except.ok (transitioned_order order ns chef now,
          if ns = OrderStatus.canceled then
            push_order_canceled (transitioned_order order ns chef now)
          else push_status_update (transitioned_order order ns chef now))) := by
  simp [change_status, hfind, hauth, hct]

theorem chain_end_cons (prev : Option OrderStatus) (e : OrderStatusHistory)
    (l : List OrderStatusHistory) :
    chain_end prev (e :: l) = chain_end (some e.new_status) l := rfl

theorem replay_cons (i : OrderStatus) (e : OrderStatusHistory) (l : List OrderStatusHistory) :
    replay i (e :: l) = replay e.new_status l := rfl

theorem replay_append_single (i : OrderStatus) (l : List OrderStatusHistory)
    (e : OrderStatusHistory) :
    replay i (l ++ [e]) = e.new_status := by
  simp [replay, List.foldl_append]

theorem chain_end_eq_replay :
    ∀ (l : List OrderStatusHistory) (prev : Option OrderStatus) (i : OrderStatus),
      l ≠ [] → chain_end prev l = some (replay i l)
  | [], _, _, h => absurd rfl h
  | e :: l, prev, i, _ => by
    cases l with
    | nil => rfl
    | cons x xs =>
      rw [chain_end_cons, replay_cons]
      exact chain_end_eq_replay (x :: xs) (some e.new_status) e.new_status (by simp)

theorem chain_ok_append (e : OrderStatusHistory) (l : List OrderStatusHistory) :
    ∀ prev : Option OrderStatus,
      chain_ok prev (l ++ [e]) =
        (chain_ok prev l && decide (e.previous_status = chain_end prev l)) := by
  induction l with
  | nil => intro prev; simp [chain_ok, chain_end]
  | cons x xs ih =>
    intro prev
    rw [List.cons_append]
    simp only [chain_ok]
    rw [ih (some x.new_status), chain_end_cons, Bool.and_assoc]

theorem first_entry_ok_append (l l2 : List OrderStatusHistory)
    (h : first_entry_ok l = true) : first_entry_ok (l ++ l2) = true := by
  cases l with
  | nil => simp [first_entry_ok] at h
  | cons e rest => simpa [first_entry_ok] using h

theorem first_entry_ok_ne_nil (l : List OrderStatusHistory)
    (h : first_entry_ok l = true) : l ≠ [] := by
  cases l with
  | nil => simp [first_entry_ok] at h
  | cons e rest => simp

/-- Core preservation step: committing one legal transition keeps the
Status History invariant, because the appended entry's previous status
is exactly the status the existing chain replays to. -/
theorem history_inv_insert (db : DB) (oid : Nat) (order order2 : Order)
    (entry : OrderStatusHistory)
    (hmem : order ∈ db.orders) (hid : order.id = oid)
    (hinv : history_inv db oid = true)
    (hentry_oid : entry.order_id = oid)
    (hprev : entry.previous_status = some order.status)
    (hid2 : order2.id = oid) (hst2 : order2.status = entry.new_status) :
    history_inv
      { db with
        orders := db.orders.map (fun o => if o.id == oid then order2 else o),
        status_history := db.status_history ++ [entry] } oid = true := by
  simp only [history_inv, Bool.and_eq_true] at hinv
  obtain ⟨⟨hchain, hfirst⟩, hall⟩ := hinv
  have hfilter :
      history_for
        { db with
          orders := db.orders.map (fun o => if o.id == oid then order2 else o),
          status_history := db.status_history ++ [entry] } oid
        = history_for db oid ++ [entry] := by
    simp [history_for, List.filter_append, hentry_oid]
  have hstatus_order : order.status = replay OrderStatus.pending (history_for db oid) := by
    have := (List.all_eq_true.mp hall) order hmem
    simp only [hid, beq_self_eq_true, Bool.not_true, Bool.false_or,
      decide_eq_true_eq] at this
    exact this
  simp only [history_inv, hfilter, Bool.and_eq_true]
  refine ⟨⟨?_, ?_⟩, ?_⟩
  · rw [chain_ok_append, Bool.and_eq_true]
    refine ⟨hchain, ?_⟩
    rw [chain_end_eq_replay (history_for db oid) none OrderStatus.pending
      (first_entry_ok_ne_nil _ hfirst)]
    simp [hprev, hstatus_order]
  · exact first_entry_ok_append _ _ hfirst
  · rw [List.all_eq_true]
    intro o' hmem'
    rw [List.mem_map] at hmem'
    obtain ⟨o, homem, rfl⟩ := hmem'
    by_cases ho : o.id = oid
    · simp only [ho, beq_self_eq_true, if_true]
      simp [hid2, hst2, replay_append_single]
    · simp [ho]

/-- Any single `change_status` call preserves the Status History
invariant: raising paths leave the store unchanged, and the committing
path extends the chain consistently. -/
theorem history_inv_change_status (db : DB) (oid : Nat) (ns : OrderStatus)
    (chef : Chef) (now : Nat)
    (hinv : history_inv db oid = true) :
    history_inv (change_status db oid ns chef now).1 oid = true := by
  cases hfind : db.orders.find? (fun o => o.id == oid) with
  | none => rw [change_status_eq_notFound db oid ns chef now hfind]; exact hinv
  | some order =>
    have hid : order.id = oid := by simpa using List.find?_some hfind
    have hmem : order ∈ db.orders := List.mem_of_find?_eq_some hfind
    by_cases hauth : order.restaurant_id = chef.restaurant_id
    · cases hct : can_transition order.status ns with
      | false =>
        rw [change_status_eq_illegal db oid ns chef now order hfind hauth hct]
        exact hinv
      | true =>
        rw [change_status_eq_ok db oid ns chef now order hfind hauth hct]
        exact history_inv_insert db oid order _ _ hmem hid hinv
          (by simp [transition_entry, hid]) (by simp [transition_entry])
          (by simp [transitioned_order_id, hid]) (by simp [transitioned_order_status, transition_entry])
    · rw [change_status_eq_forbidden db oid ns chef now order hfind hauth]
      exact hinv

/-- Every single status-changing request preserves the invariant: a
`change_status` request by the preservation lemma above, and every
chef-service request because it raises at the fetch and returns the
store unchanged. -/
theorem history_inv_lifecycle_step (db : DB) (oid : Nat) (r : LifecycleReq)
    (hinv : history_inv db oid = true) :
    history_inv (lifecycle_step db oid r) oid = true := by
  cases r with
  | engine ns chef now => exact history_inv_change_status db oid ns chef now hinv
  | chefAccept chef => exact hinv
  | chefStartCooking chef => exact hinv
  | chefMarkReady chef => exact hinv
  | chefComplete chef => exact hinv
  | chefCancel chef => exact hinv
  | chefReject chef => exact hinv

/-- The invariant is preserved by any sequence of status-changing
requests against the order. -/
theorem history_inv_apply_lifecycle (oid : Nat) :
    ∀ (reqs : List LifecycleReq) (db : DB), history_inv db oid = true →
      history_inv (apply_lifecycle db oid reqs) oid = true
  | [], _, h => h
  | r :: rs, db, h =>
    history_inv_apply_lifecycle oid rs _ (history_inv_lifecycle_step db oid r h)

/-- Placement shape: appending a fresh order in `pending` together with
its placement history entry establishes the invariant. -/
theorem history_inv_placement (db : DB) (oid : Nat) (order : Order)
    (entry : OrderStatusHistory) (ls : List OrderItem)
    (hfresh_hist : history_for db oid = [])
    (hfresh_ord : ∀ o ∈ db.orders, o.id ≠ oid)
    (hid : order.id = oid) (hst : order.status = OrderStatus.pending)
    (he_oid : entry.order_id = oid) (he_prev : entry.previous_status = none)
    (he_new : entry.new_status = OrderStatus.pending) :
    history_inv
      { db with
        orders := db.orders ++ [order],
        order_items := db.order_items ++ ls,
        status_history := db.status_history ++ [entry] } oid = true := by
  simp only [history_for] at hfresh_hist
  have hfilter :
      history_for
        { db with
          orders := db.orders ++ [order],
          order_items := db.order_items ++ ls,
          status_history := db.status_history ++ [entry] } oid = [entry] := by
    simp [history_for, List.filter_append, hfresh_hist, he_oid]
  simp only [history_inv, hfilter]
  rw [Bool.and_eq_true, Bool.and_eq_true]
  refine ⟨⟨?_, ?_⟩, ?_⟩
  · simp [chain_ok, he_prev]
  · simp [first_entry_ok, he_prev, he_new]
  · rw [List.all_eq_true]
    intro o ho
    simp only [List.mem_append, List.mem_singleton] at ho
    cases ho with
    | inl hmem =>
      have hne := hfresh_ord o hmem
      simp [hne]
    | inr heq =>
      subst heq
      simp [hid, hst, replay, he_new]

/-- Placement establishes the invariant, given a fresh order id. -/
theorem history_inv_create (db : DB) (rid : Nat) (cname : Option String)
    (items : List PayloadItem) (oid now : Nat) (db1 : DB) (order : Order)
    (hcre : create_customer_order db rid cname items oid now = some (db1, order))
    (hfresh_hist : history_for db oid = [])
    (hfresh_ord : ∀ o ∈ db.orders, o.id ≠ oid) :
    history_inv db1 oid = true := by
  unfold create_customer_order at hcre
  by_cases hemp : items.isEmpty
  · simp [hemp] at hcre
  · rw [if_neg hemp] at hcre
    cases hbuild : build_order_items db.menu oid items with
    | none => rw [hbuild] at hcre; cases hcre
    | some ls =>
      rw [hbuild] at hcre
      simp only [Option.some.injEq, Prod.mk.injEq] at hcre
      obtain ⟨hdb1, horder⟩ := hcre
      subst hdb1
      exact history_inv_placement db oid _ _ ls hfresh_hist hfresh_ord rfl rfl rfl rfl rfl

/-- Exhaustive reading of the transition table: the pairs accepted by
`can_transition` are exactly the eight rows of `ALLOWED_TRANSITIONS`. -/
theorem can_transition_iff (s t : OrderStatus) :
    can_transition s t = true ↔
      ((s = OrderStatus.pending ∧
          (t = OrderStatus.accepted ∨ t = OrderStatus.canceled ∨ t = OrderStatus.rejected)) ∨
       (s = OrderStatus.accepted ∧ (t = OrderStatus.cooking ∨ t = OrderStatus.canceled)) ∨
       (s = OrderStatus.cooking ∧ (t = OrderStatus.ready ∨ t = OrderStatus.canceled)) ∨
       (s = OrderStatus.ready ∧ t = OrderStatus.completed)) := by
  cases s <;> cases t <;> decide

/-- Every line `build_order_items` produces belongs to the order, has
its line total equal to unit price times quantity, and carries as unit
price the menu price found for its menu item at creation time. -/
theorem build_order_items_spec :
    ∀ (items : List PayloadItem) (menu : List MenuItem) (oid : Nat) (ls : List OrderItem),
      build_order_items menu oid items = some ls →
      ∀ l ∈ ls, l.order_id = oid ∧ l.total_price = l.unit_price * (l.quantity : Int) ∧
        ∃ m, lookup_menu_item menu l.menu_item_id = some m ∧ l.unit_price = m.price := by
  intro items
  induction items with
  | nil =>
    intro menu oid ls h l hl
    simp only [build_order_items, Option.some.injEq] at h
    subst h
    simp at hl
  | cons it rest ih =>
    intro menu oid ls h l hl
    simp only [build_order_items] at h
    cases hlook : lookup_menu_item menu it.item_id with
    | none => rw [hlook] at h; cases h
    | some m =>
      rw [hlook] at h
      cases hrest : build_order_items menu oid rest with
      | none => rw [hrest] at h; cases h
      | some ls' =>
        rw [hrest] at h
        simp only [Option.map_some', Option.some.injEq] at h
        subst h
        rcases List.mem_cons.mp hl with hhead | htail
        · subst hhead
          refine ⟨rfl, rfl, m, ?_, rfl⟩
          have hmid : m.id = it.item_id := by
            simpa using List.find?_some hlook
          simpa [build_order_item, hmid] using hlook
        · exact ih menu oid ls' hrest l htail

/-- Summing the stored line totals agrees with summing unit price times
quantity when every line satisfies the snapshot equation. -/
theorem foldl_total_eq :
    ∀ (ls : List OrderItem),
      (∀ l ∈ ls, l.total_price = l.unit_price * (l.quantity : Int)) →
      ∀ acc : Int,
        ls.foldl (fun a l => a + l.total_price) acc
          = ls.foldl (fun a l => a + l.unit_price * (l.quantity : Int)) acc := by
  intro ls
  induction ls with
  | nil => intro _ acc; rfl
  | cons x xs ih =>
    intro h acc
    simp only [List.foldl_cons]
    rw [h x (List.mem_cons_self x xs)]
    exact ih (fun l hl => h l (List.mem_cons_of_mem x hl)) _

/-- Fan-out characterization of the unguarded delivery loop: the
deliveries are exactly the connections before the first broken one, and
an exception escapes exactly when some connection is broken. -/
theorem ws_send_all_eq (msg : EventMsg) :
    ∀ l : List WSConn,
      ws_send_all msg l =
        ((l.takeWhile (fun w => !w.broken)).map (fun w => (w.id, msg)),
          l.any (fun w => w.broken)) := by
  intro l
  induction l with
  | nil => rfl
  | cons w rest ih =>
    cases hb : w.broken with
    | true =>
      simp [ws_send_all, ws_send_json, hb, List.takeWhile_cons, List.any_cons]
    | false =>
      simp [ws_send_all, ws_send_json, hb, List.takeWhile_cons, List.any_cons, ih]

/-- Python `list.remove` raises `ValueError` when the element is not in
the list. -/
theorem py_list_remove_of_not_mem (ws : WSConn) :
    ∀ l : List WSConn, ws ∉ l → py_list_remove ws l = Except.error WSError.valueError := by
  intro l
  induction l with
  | nil => intro _; rfl
  | cons w rest ih =>
    intro h
    have hne : ¬(w = ws) := fun e => h (by rw [e]; exact List.mem_cons_self ws rest)
    simp only [py_list_remove]
    rw [if_neg hne, ih (fun hm => h (List.mem_cons_of_mem _ hm))]

/-- Removing an element that occurs exactly once succeeds and leaves a
list no longer containing it. -/
theorem py_list_remove_count_one (ws : WSConn) :
    ∀ l : List WSConn, l.countP (fun w => decide (w = ws)) = 1 →
      ∃ l2, py_list_remove ws l = Except.ok l2 ∧ ws ∉ l2 := by
  intro l
  induction l with
  | nil => intro h; simp [List.countP_nil] at h
  | cons w rest ih =>
    intro h
    by_cases hw : w = ws
    · refine ⟨rest, by simp [py_list_remove, hw], ?_⟩
      have hcnt : rest.countP (fun w => decide (w = ws)) = 0 := by
        rw [List.countP_cons_of_pos _ rest (by simp [hw])] at h
        omega
      intro hmem
      have := List.countP_eq_zero.mp hcnt ws hmem
      simp at this
    · obtain ⟨l2, hrem, hnm⟩ := ih (by rwa [List.countP_cons_of_neg _ rest (by simp [hw])] at h)
      refine ⟨w :: l2, by simp [py_list_remove, hw, hrem], ?_⟩
      intro hmem
      rcases List.mem_cons.mp hmem with h1 | h2
      · exact hw h1.symm
      · exact hnm h2

/-- Delivery with no broken connection reaches every registered
connection and lets no exception escape. -/
theorem ws_send_all_all_live (msg : EventMsg) :
    ∀ l : List WSConn, (∀ w ∈ l, w.broken = false) →
      ws_send_all msg l = (l.map (fun w => (w.id, msg)), false) := by
  intro l
  induction l with
  | nil => intro _; rfl
  | cons w rest ih =>
    intro h
    have hw := h w (List.mem_cons_self w rest)
    simp [ws_send_all, ws_send_json, hw, ih (fun x hx => h x (List.mem_cons_of_mem w hx))]

/-- `update_item` touches only the menu table: the orders and line
items are untouched by a later menu price change. -/
theorem update_item_preserves_orders (db : DB) (mid : Nat) (p : Option Int)
    (db2 : DB) (m2 : MenuItem)
    (h : update_item db mid p = some (db2, m2)) :
    db2.orders = db.orders ∧ db2.order_items = db.order_items := by
  unfold update_item at h
  cases hf : db.menu.find? (fun m => m.id == mid) with
  | none => rw [hf] at h; cases h
  | some item =>
    rw [hf] at h
    simp only [Option.some.injEq, Prod.mk.injEq] at h
    obtain ⟨hdb2, _⟩ := h
    rw [← hdb2]
    exact ⟨rfl, rfl⟩

/-- C1: a status transition via `change_status` succeeds exactly when
the pair (current status, target status) is in the allowed-transition
table — pending to accepted, canceled or rejected; accepted to cooking
or canceled; cooking to ready or canceled; ready to completed; and
completed, canceled, rejected admit no outbound transitions — and every
other pair is rejected with the 400 client error naming the statuses
while the store is left unchanged. -/
theorem c1_change_status_follows_table (db : DB) (oid : Nat) (ns : OrderStatus)
    (chef : Chef) (now : Nat) (order : Order)
    (hfind : db.orders.find? (fun o => o.id == oid) = some order)
    (hauth : order.restaurant_id = chef.restaurant_id) :
    (except_ok (change_status db oid ns chef now).2 = true ↔
      ((order.status = OrderStatus.pending ∧
          (ns = OrderStatus.accepted ∨ ns = OrderStatus.canceled ∨ ns = OrderStatus.rejected)) ∨
       (order.status = OrderStatus.accepted ∧
          (ns = OrderStatus.cooking ∨ ns = OrderStatus.canceled)) ∨
       (order.status = OrderStatus.cooking ∧
          (ns = OrderStatus.ready ∨ ns = OrderStatus.canceled)) ∨
       (order.status = OrderStatus.ready ∧ ns = OrderStatus.completed))) ∧
    (can_transition order.status ns = false →
      change_status db oid ns chef now =
        (db, Except.error (ApiError.badRequest
          ("Cannot change status from " ++ order.status.value ++ " to " ++ ns.value)))) := by
  constructor
  · rw [← can_transition_iff]
    cases hct : can_transition order.status ns with
    | true =>
      rw [change_status_eq_ok db oid ns chef now order hfind hauth hct]
      simp [except_ok]
    | false =>
      rw [change_status_eq_illegal db oid ns chef now order hfind hauth hct]
      simp [except_ok]
  · intro hct
    exact change_status_eq_illegal db oid ns chef now order hfind hauth hct

/-- C1 witness: the theorem applied to a concrete pending order with an
affiliated chef and target accepted: the lookup and affiliation
hypotheses hold and the transition succeeds. -/
theorem c1_change_status_follows_table_witness :
    ((sample_db sample_order).orders.find? (fun o => o.id == 1) = some sample_order) ∧
    sample_order.restaurant_id = sample_chef.restaurant_id ∧
    except_ok (change_status (sample_db sample_order) 1 OrderStatus.accepted sample_chef 6).2 = true :=
  ⟨rfl, rfl,
    (c1_change_status_follows_table (sample_db sample_order) 1 OrderStatus.accepted
        sample_chef 6 sample_order rfl rfl).1.mpr (Or.inl ⟨rfl, Or.inl rfl⟩)⟩

/-- C4 counterexample: `ready` does not have zero outbound transitions —
the table allows ready to completed, and a concrete `change_status` on a
ready order with target completed succeeds. -/
theorem c4_counterexample :
    can_transition OrderStatus.ready OrderStatus.completed = true ∧
    except_ok (change_status (sample_db { sample_order with status := OrderStatus.ready })
      1 OrderStatus.completed sample_chef 9).2 = true := by decide

/-- C4 amended: `ready` has exactly one legal outbound transition, to
`completed`; every other target is rejected from ready. -/
theorem c4_ready_single_target (t : OrderStatus) :
    can_transition OrderStatus.ready t = true ↔ t = OrderStatus.completed := by
  cases t <;> decide

/-- C3 counterexample: the chef cancel raises on a pending order — a
status the claim says is cancelable — instead of succeeding:
`cancel_order` reads `.status` on the item-row list returned by
`get_order_items_with_name`, so the AttributeError escapes before the
guard and the store is returned unchanged. -/
theorem c3_counterexample :
    sample_order.status = OrderStatus.pending ∧
    cancel_order (sample_db sample_order) 1 sample_chef =
      (sample_db sample_order, Except.error (ApiError.attributeError "status")) := by decide

/-- C3 amended: the chef-facing cancel never succeeds for any order and
any current status — every call raises an unhandled AttributeError at
the status read on the item-row list returned by the fetch, before any
status check or mutation, and returns the store unchanged. -/
theorem c3_cancel_always_raises (db : DB) (order_id : Nat) (chef : Chef) :
    except_ok (cancel_order db order_id chef).2 = false ∧
    (cancel_order db order_id chef).1 = db ∧
    (cancel_order db order_id chef).2 = Except.error (ApiError.attributeError "status") :=
  ⟨rfl, rfl, rfl⟩

/-- C10 counterexample: a chef who already holds the order does not get
the claimed successful idempotent re-claim — the call raises the fetch
AttributeError, like every `assign_order` call, and the store comes
back unchanged. -/
theorem c10_counterexample :
    ({ sample_order with assigned_chef_id := some 7 } : Order).assigned_chef_id =
      some sample_chef.id ∧
    assign_order (sample_db { sample_order with assigned_chef_id := some 7 }) 1 sample_chef =
      (sample_db { sample_order with assigned_chef_id := some 7 },
        Except.error (ApiError.attributeError "assigned_chef_id")) := by decide

/-- C10 amended: `assign_order` neither succeeds nor raises the
already-assigned error for any caller, holder or order — every call
raises an unhandled AttributeError at the `assigned_chef_id` read on
the item-row list returned by the fetch, before any ownership check or
mutation, leaving the store unchanged. -/
theorem c10_assign_always_raises (db : DB) (order_id : Nat) (chef : Chef) :
    except_ok (assign_order db order_id chef).2 = false ∧
    (assign_order db order_id chef).1 = db ∧
    (assign_order db order_id chef).2 =
      Except.error (ApiError.attributeError "assigned_chef_id") ∧
    (assign_order db order_id chef).2 ≠
      Except.error (ApiError.badRequest "Order already assigned to another chef") :=
  ⟨rfl, rfl, rfl, by simp [assign_order, list_attribute_error]⟩

/-- C2: after placement the Status History of the order always forms an
unbroken chain — the first entry is the placement entry (previous none,
new pending), each later entry's previous status equals the prior
entry's new status — and after any sequence of the status-changing
operations (`change_status`, `accept_order`, `start_cooking`,
`mark_ready`, `complete_order`, `cancel_order`, `reject_order`)
replaying the chain of new-status values reconstructs the order's
current status.  The successful operations among these are exactly the
legal `change_status` calls, which extend the chain consistently; every
chef-service call raises at the fetch and leaves the store unchanged. -/
theorem c2_history_chain (db : DB) (rid : Nat) (cname : Option String)
    (items : List PayloadItem) (oid now : Nat) (db1 : DB) (order : Order)
    (reqs : List LifecycleReq)
    (hcre : create_customer_order db rid cname items oid now = some (db1, order))
    (hfresh_hist : history_for db oid = [])
    (hfresh_ord : ∀ o ∈ db.orders, o.id ≠ oid) :
    history_inv (apply_lifecycle db1 oid reqs) oid = true :=
  history_inv_apply_lifecycle oid reqs db1
    (history_inv_create db rid cname items oid now db1 order hcre hfresh_hist hfresh_ord)

/-- C2 witness: a concrete placement followed by an accepted engine
transition, a chef cancel attempt and a cooking engine transition
keeps the invariant. -/
theorem c2_history_chain_witness :
    (create_customer_order menu_db 10 (some "alice") [{ item_id := 1, quantity := 2 }] 1 5 =
      some (placed_db, sample_order)) ∧
    history_inv (apply_lifecycle placed_db 1
      [LifecycleReq.engine OrderStatus.accepted sample_chef 6,
       LifecycleReq.chefCancel sample_chef,
       LifecycleReq.engine OrderStatus.cooking sample_chef 7]) 1 = true :=
  ⟨by decide,
    c2_history_chain menu_db 10 (some "alice")
      [{ item_id := 1, quantity := 2 }] 1 5 placed_db sample_order
      [LifecycleReq.engine OrderStatus.accepted sample_chef 6,
       LifecycleReq.chefCancel sample_chef,
       LifecycleReq.engine OrderStatus.cooking sample_chef 7]
      (by decide) rfl (by simp [menu_db])⟩

/-- C5 counterexample: a concrete successful worker transition through
`change_status` appends no Activity Log entry, refuting that every
successful transition appends exactly one. -/
theorem c5_counterexample :
    except_ok (change_status (sample_db sample_order) 1 OrderStatus.accepted sample_chef 6).2 = true ∧
    (change_status (sample_db sample_order) 1 OrderStatus.accepted sample_chef 6).1.activity_log = [] := by decide

/-- C5 amended: no worker-initiated operation appends an Activity Log
entry — `change_status` commits its transition without logging;
`assign_order` and `unassign_order` raise the fetch AttributeError on
every call, before any logging or mutation; and the chef lifecycle
operations, the only code containing `_log_action` calls, raise the
same way before reaching them, leaving the log unchanged. -/
theorem c5_no_activity_log_appends (db : DB) (oid : Nat) (ns : OrderStatus)
    (chef : Chef) (now : Nat) :
    ((change_status db oid ns chef now).1.activity_log = db.activity_log) ∧
    (assign_order db oid chef =
      (db, Except.error (ApiError.attributeError "assigned_chef_id"))) ∧
    (unassign_order db oid chef =
      (db, Except.error (ApiError.attributeError "assigned_chef_id"))) ∧
    ((accept_order db oid chef).1.activity_log = db.activity_log) ∧
    ((start_cooking db oid chef).1.activity_log = db.activity_log) ∧
    ((mark_ready db oid chef).1.activity_log = db.activity_log) ∧
    ((complete_order db oid chef).1.activity_log = db.activity_log) ∧
    ((cancel_order db oid chef).1.activity_log = db.activity_log) ∧
    ((reject_order db oid chef).1.activity_log = db.activity_log) := by
  refine ⟨?_, rfl, rfl, rfl, rfl, rfl, rfl, rfl, rfl⟩
  cases hfind : db.orders.find? (fun o => o.id == oid) with
  | none => simp [change_status_eq_notFound db oid ns chef now hfind]
  | some o =>
    by_cases hauth : o.restaurant_id = chef.restaurant_id
    · cases hct : can_transition o.status ns with
      | false => simp [change_status_eq_illegal db oid ns chef now o hfind hauth hct]
      | true => simp [change_status_eq_ok db oid ns chef now o hfind hauth hct]
    · simp [change_status_eq_forbidden db oid ns chef now o hfind hauth]

/-- C6: for a successfully placed order, the total equals the sum over
its line items of unit price times quantity, every line's unit price is
the menu price frozen at creation (and its line total the product), and
a later menu-item price update leaves the stored orders and line items
untouched. -/
theorem c6_total_is_frozen_sum (db : DB) (rid : Nat) (cname : Option String)
    (items : List PayloadItem) (oid now : Nat) (db1 : DB) (order : Order)
    (hcre : create_customer_order db rid cname items oid now = some (db1, order))
    (hfresh : items_of db oid = []) :
    order.total_amount =
      (items_of db1 oid).foldl (fun acc it => acc + it.unit_price * (it.quantity : Int)) 0 ∧
    (∀ it ∈ items_of db1 oid,
      it.total_price = it.unit_price * (it.quantity : Int) ∧
      ∃ m, lookup_menu_item db.menu it.menu_item_id = some m ∧ it.unit_price = m.price) ∧
    (∀ mid p db2 m2, update_item db1 mid p = some (db2, m2) →
      db2.orders = db1.orders ∧ db2.order_items = db1.order_items) := by
  unfold create_customer_order at hcre
  by_cases hemp : items.isEmpty
  · simp [hemp] at hcre
  · rw [if_neg hemp] at hcre
    cases hbuild : build_order_items db.menu oid items with
    | none => rw [hbuild] at hcre; cases hcre
    | some ls =>
      rw [hbuild] at hcre
      simp only [Option.some.injEq, Prod.mk.injEq] at hcre
      obtain ⟨hdb1, horder⟩ := hcre
      have hspec := build_order_items_spec items db.menu oid ls hbuild
      have hitems : items_of db1 oid = ls := by
        rw [← hdb1]
        show List.filter (fun it => it.order_id == oid) (db.order_items ++ ls) = ls
        rw [List.filter_append]
        unfold items_of at hfresh
        rw [hfresh, List.nil_append, List.filter_eq_self]
        intro a ha
        have := (hspec a ha).1
        simp [this]
      refine ⟨?_, ?_, ?_⟩
      · rw [hitems, ← horder]
        show List.foldl (fun acc l => acc + l.total_price) 0 ls = _
        exact foldl_total_eq ls (fun l hl => (hspec l hl).2.1) 0
      · intro it hit
        rw [hitems] at hit
        exact ⟨(hspec it hit).2.1, (hspec it hit).2.2⟩
      · intro mid p db2 m2 h
        exact update_item_preserves_orders db1 mid p db2 m2 h

/-- C6 witness: the sample placement freezes price 3 times quantity 2
into a total of 6, and a menu price update leaves the placed order and
line items untouched. -/
theorem c6_total_is_frozen_sum_witness :
    (create_customer_order menu_db 10 (some "alice") [{ item_id := 1, quantity := 2 }] 1 5 =
      some (placed_db, sample_order)) ∧
    sample_order.total_amount =
      (items_of placed_db 1).foldl (fun acc it => acc + it.unit_price * (it.quantity : Int)) 0 ∧
    (∀ mid p db2 m2, update_item placed_db mid p = some (db2, m2) →
      db2.orders = placed_db.orders ∧ db2.order_items = placed_db.order_items) :=
  ⟨by decide,
    (c6_total_is_frozen_sum menu_db 10 (some "alice") [{ item_id := 1, quantity := 2 }] 1 5
      placed_db sample_order (by decide) rfl).1,
    (c6_total_is_frozen_sum menu_db 10 (some "alice") [{ item_id := 1, quantity := 2 }] 1 5
      placed_db sample_order (by decide) rfl).2.2⟩

/-- C7 counterexample: with two connections registered for order 1 and
the first one dead, the broadcast delivers to nobody — the remaining
live connection is skipped — and the send exception escapes to the
publisher, refuting best-effort delivery. -/
theorem c7_counterexample :
    (dead_first_mgr.order_clients 1).length = 2 ∧
    broadcast_order dead_first_mgr 1 sample_msg = ([], true) := by decide

/-- C7 corrected: the unguarded fan-out loop delivers in registration
order only up to the first broken connection; a send failure aborts the
remaining deliveries and the exception escapes to the publisher; only
when no registered connection is broken does every connection receive
the message with no error escaping. -/
theorem c7_broadcast_stops_at_failure (mgr : OrderWSManager) (oid rid : Nat) (msg : EventMsg) :
    (broadcast_order mgr oid msg =
      (((mgr.order_clients oid).takeWhile (fun w => !w.broken)).map (fun w => (w.id, msg)),
        (mgr.order_clients oid).any (fun w => w.broken))) ∧
    (broadcast_to_restaurant mgr rid msg =
      (((mgr.chef_clients rid).takeWhile (fun w => !w.broken)).map (fun w => (w.id, msg)),
        (mgr.chef_clients rid).any (fun w => w.broken))) ∧
    ((∀ w ∈ mgr.order_clients oid, w.broken = false) →
      broadcast_order mgr oid msg = ((mgr.order_clients oid).map (fun w => (w.id, msg)), false)) :=
  ⟨ws_send_all_eq msg (mgr.order_clients oid),
   ws_send_all_eq msg (mgr.chef_clients rid),
   fun h => ws_send_all_all_live msg (mgr.order_clients oid) h⟩

/-- C7 witness: with two live connections for order 1 the broadcast
reaches both and no error escapes. -/
theorem c7_broadcast_stops_at_failure_witness :
    broadcast_order two_live_mgr 1 sample_msg = ([(2, sample_msg), (3, sample_msg)], false) :=
  (c7_broadcast_stops_at_failure two_live_mgr 1 0 sample_msg).2.2 (by decide)

/-- C8 counterexample: unsubscribing a connection that is not
registered raises (Python `list.remove` ValueError) instead of
succeeding silently, refuting idempotence. -/
theorem c8_counterexample :
    disconnect_order empty_mgr 1 live_conn = Except.error WSError.valueError := rfl

/-- C8 corrected: disconnect removes the first occurrence of the
connection when present, but it is not idempotent — when the connection
is not (or no longer) registered under the key, both disconnect
operations raise the `list.remove` ValueError; in particular after one
successful disconnect of a singly-registered connection, repeating it
raises. -/
theorem c8_disconnect_raises_when_absent (mgr : OrderWSManager) (k : Nat) (ws : WSConn) :
    (ws ∉ mgr.order_clients k →
      disconnect_order mgr k ws = Except.error WSError.valueError) ∧
    ((mgr.order_clients k).countP (fun w => decide (w = ws)) = 1 →
      ∃ mgr2, disconnect_order mgr k ws = Except.ok mgr2 ∧
        disconnect_order mgr2 k ws = Except.error WSError.valueError) ∧
    (ws ∉ mgr.chef_clients k →
      disconnect_chef_restaurant mgr k ws = Except.error WSError.valueError) := by
  refine ⟨?_, ?_, ?_⟩
  · intro h
    unfold disconnect_order
    rw [py_list_remove_of_not_mem ws _ h]
  · intro h
    obtain ⟨l2, hrem, hnm⟩ := py_list_remove_count_one ws _ h
    refine ⟨{ mgr with order_clients := fun k2 => if k2 = k then l2 else mgr.order_clients k2 },
      ?_, ?_⟩
    · unfold disconnect_order
      rw [hrem]
    · unfold disconnect_order
      have hcl : ({ mgr with
          order_clients := fun k2 => if k2 = k then l2 else mgr.order_clients k2 } :
            OrderWSManager).order_clients k = l2 := by simp
      rw [hcl, py_list_remove_of_not_mem ws l2 hnm]
  · intro h
    unfold disconnect_chef_restaurant
    rw [py_list_remove_of_not_mem ws _ h]

/-- C8 witness: removing the single registered connection succeeds once
and raises on the second attempt. -/
theorem c8_disconnect_raises_when_absent_witness :
    ∃ mgr2, disconnect_order one_conn_mgr 1 live_conn = Except.ok mgr2 ∧
      disconnect_order mgr2 1 live_conn = Except.error WSError.valueError :=
  (c8_disconnect_raises_when_absent one_conn_mgr 1 live_conn).2.1 (by decide)

/-- C9 counterexample: a concrete committed transition to canceled
publishes the order_canceled payload whose dict has exactly the keys
`event` and `order_id` — `reason := none` models the absence of a
reason key — refuting that the canceled event payload carries a reason
field. -/
theorem c9_counterexample :
    (change_status (sample_db sample_order) 1 OrderStatus.canceled sample_chef 6).2 =
      Except.ok (transitioned_order sample_order OrderStatus.canceled sample_chef 6,
        [(Scope.orderScope 1,
          { event := "order_canceled", order_id := 1, restaurant_id := none,
            status := none, reason := none }),
         (Scope.restaurantScope 10,
          { event := "order_canceled", order_id := 1, restaurant_id := none,
            status := none, reason := none })]) := by decide

/-- C9 amended: every committed transition publishes exactly one
message, delivered to both the order-scoped and the kitchen-scoped
keys; a canceled transition publishes the distinct order_canceled
payload carrying only the event name and order id (no reason field);
every other transition publishes the generic status-update payload
carrying the event name, order id and new status. -/
theorem c9_one_event_to_both_scopes (db : DB) (oid : Nat) (ns : OrderStatus) (chef : Chef)
    (now : Nat) (order2 : Order) (events : List (Scope × EventMsg))
    (hok : (change_status db oid ns chef now).2 = Except.ok (order2, events)) :
    order2.status = ns ∧
    (ns = OrderStatus.canceled →
      events =
        [(Scope.orderScope order2.id,
          { event := "order_canceled", order_id := order2.id, restaurant_id := none,
            status := none, reason := none }),
         (Scope.restaurantScope order2.restaurant_id,
          { event := "order_canceled", order_id := order2.id, restaurant_id := none,
            status := none, reason := none })]) ∧
    (ns ≠ OrderStatus.canceled →
      events =
        [(Scope.orderScope order2.id,
          { event := "order_status_update", order_id := order2.id, restaurant_id := none,
            status := some ns.value, reason := none }),
         (Scope.restaurantScope order2.restaurant_id,
          { event := "order_status_update", order_id := order2.id, restaurant_id := none,
            status := some ns.value, reason := none })]) := by
  cases hfind : db.orders.find? (fun o => o.id == oid) with
  | none =>
    rw [change_status_eq_notFound db oid ns chef now hfind] at hok
    cases hok
  | some order =>
    by_cases hauth : order.restaurant_id = chef.restaurant_id
    · cases hct : can_transition order.status ns with
      | false =>
        rw [change_status_eq_illegal db oid ns chef now order hfind hauth hct] at hok
        cases hok
      | true =>
        rw [change_status_eq_ok db oid ns chef now order hfind hauth hct] at hok
        simp only [Except.ok.injEq, Prod.mk.injEq] at hok
        obtain ⟨horder2, hevents⟩ := hok
        subst horder2
        subst hevents
        refine ⟨transitioned_order_status order ns chef now, ?_, ?_⟩
        · intro hc
          rw [if_pos hc]
          rfl
        · intro hc
          rw [if_neg hc]
          rfl
    · rw [change_status_eq_forbidden db oid ns chef now order hfind hauth] at hok
      cases hok

/-- C9 witness: a concrete accepted transition publishes the generic
status-update payload once to each of the two scopes. -/
theorem c9_one_event_to_both_scopes_witness :
    ((change_status (sample_db sample_order) 1 OrderStatus.accepted sample_chef 6).2 =
      Except.ok (c9_order2, c9_events)) ∧
    c9_events =
      [(Scope.orderScope c9_order2.id,
        { event := "order_status_update", order_id := c9_order2.id, restaurant_id := none,
          status := some (OrderStatus.accepted).value, reason := none }),
       (Scope.restaurantScope c9_order2.restaurant_id,
        { event := "order_status_update", order_id := c9_order2.id, restaurant_id := none,
          status := some (OrderStatus.accepted).value, reason := none })] :=
  ⟨by decide,
    (c9_one_event_to_both_scopes (sample_db sample_order) 1 OrderStatus.accepted sample_chef 6
      c9_order2 c9_events (by decide)).2.2 (by decide)⟩

end KitchenQueue
